import Mathlib

/-!
Verification of the particle engine in `src/particles.js` (classes `Particle`,
`ParticlePool`, `ParticleEngine`).

Modelling conventions:
* JS numbers are modelled as `ℚ`; times (`Date.now()`, `performance.now()`)
  are `ℚ` arguments passed explicitly.
* `Math.cos` / `Math.sin` / `Math.PI` are opaque: they are carried in a
  `MathEnv` record of function parameters; the code never relies on their
  values, only on how they are combined.
* Each call to `Math.random()` is one field of a `Rands` record supplied per
  spawned particle (the spawn-pattern methods draw their own randoms before
  calling `Particle.spawn`, hence the `p`-prefixed fields).
* JS arrays are Lean lists in the same index order: `push` appends at the
  end, `pop` removes the last element, `splice(i, 1)` is `eraseIdx i`,
  `indexOf` is reference equality, modelled by the `id` tag that stands for
  object identity (it is not a field of the JS object).
* In-place mutation of a particle that is referenced from the pool's arrays
  is modelled by rewriting the corresponding list entry.
-/

/-- `PARTICLE_CONFIG` shape: top-level keys plus the nested `mobile` block. -/
structure PConfig where
  maxParticles : Nat
  poolSize : Nat
  lifetime : ℚ
  speedMin : ℚ
  speedMax : ℚ
  sizeMin : ℚ
  sizeMax : ℚ
  colors : List String
  gravity : ℚ
  friction : ℚ
  fadeOut : Bool
  mobileMaxParticles : Nat
  mobileLifetime : ℚ
  mobileSpawnRate : ℚ
deriving DecidableEq

/-- The literal `PARTICLE_CONFIG` object from `src/particles.js`. -/
def PARTICLE_CONFIG : PConfig :=
  { maxParticles := 200
    poolSize := 300
    lifetime := 2000
    speedMin := 1
    speedMax := 4
    sizeMin := 4
    sizeMax := 10
    colors := ["#4A90E2", "#2ECC71", "#A8E6CF", "#FF7F50", "#FF6B9D"]
    gravity := 1/20
    friction := 49/50
    fadeOut := true
    mobileMaxParticles := 100
    mobileLifetime := 1500
    mobileSpawnRate := 1/2 }

/-- `Object.assign(PARTICLE_CONFIG, PARTICLE_CONFIG.mobile)` on a mobile
device: overwrites `maxParticles` and `lifetime`.  (It also copies
`spawnRate` to the top level, but the code only ever reads
`PARTICLE_CONFIG.mobile.spawnRate`, which is unchanged, so that copy is
unobservable and not modelled.) -/
def applyMobile (cfg : PConfig) : PConfig :=
  { cfg with maxParticles := cfg.mobileMaxParticles, lifetime := cfg.mobileLifetime }

/-- The effective configuration on a mobile device. -/
def mobileConfig : PConfig := applyMobile PARTICLE_CONFIG

/-- Opaque trigonometry environment standing for `Math.cos`, `Math.sin`,
`Math.PI`. -/
structure MathEnv where
  cos : ℚ → ℚ
  sin : ℚ → ℚ
  pi : ℚ

/-- One `Math.random()` draw per random decision a single particle spawn can
make.  The `U`-suffixed fields are raw uniform draws in `[0,1)`; `colorIdx`
is the already-floored palette index `Math.floor(Math.random() * len)`.
The `p`-prefixed fields are the draws made by the spawn-pattern methods
(`spawnExplosion` etc.) before they call `Particle.spawn`. -/
structure Rands where
  angleU : ℚ
  speedU : ℚ
  sizeU : ℚ
  colorIdx : Nat
  rotU : ℚ
  rotSpeedU : ℚ
  pAngleU : ℚ
  pSpeedU : ℚ
  pSizeU : ℚ
deriving DecidableEq

/-- The recognized keys of the `options` object accepted by
`Particle.spawn`; `none` models an absent key (the `??` defaults fire). -/
structure SpawnOptions where
  angle : Option ℚ
  speed : Option ℚ
  size : Option ℚ
  color : Option String
  lifetime : Option ℚ
deriving DecidableEq

/-- A `Particle` object.  `id` models JS reference identity (it has no
counterpart field in the source object); the remaining fields are exactly
the fields assigned by `Particle.reset`. -/
structure Particle where
  id : Nat
  active : Bool
  x : ℚ
  y : ℚ
  vx : ℚ
  vy : ℚ
  size : ℚ
  color : String
  life : ℚ
  maxLife : ℚ
  birthTime : ℚ
  rot : ℚ
  rotSpeed : ℚ
deriving DecidableEq

/-- `Particle.prototype.reset`. -/
def Particle.reset (cfg : PConfig) (p : Particle) : Particle :=
  { id := p.id
    active := false
    x := 0
    y := 0
    vx := 0
    vy := 0
    size := 5
    color := "#4A90E2"
    life := 1
    maxLife := cfg.lifetime
    birthTime := 0
    rot := 0
    rotSpeed := 0 }

/-- `new Particle()`: the constructor just calls `reset()`; `i` is the fresh
object identity. -/
def newParticle (cfg : PConfig) (i : Nat) : Particle :=
  { id := i
    active := false
    x := 0
    y := 0
    vx := 0
    vy := 0
    size := 5
    color := "#4A90E2"
    life := 1
    maxLife := cfg.lifetime
    birthTime := 0
    rot := 0
    rotSpeed := 0 }

/-- JS indexing past the end of an array yields `undefined`; this stands for
that value when `PARTICLE_CONFIG.colors[...]` were out of range (it never is
for in-range draws). -/
def jsUndefined : String := "undefined"

/-- `const angle = options.angle ?? Math.random() * Math.PI * 2` in
`Particle.spawn`. -/
def spawnAngle (env : MathEnv) (opts : SpawnOptions) (r : Rands) : ℚ :=
  opts.angle.getD (r.angleU * env.pi * 2)

/-- `const speed = options.speed ?? (Math.random() * (max - min) + min)` in
`Particle.spawn`. -/
def spawnSpeed (cfg : PConfig) (opts : SpawnOptions) (r : Rands) : ℚ :=
  opts.speed.getD (r.speedU * (cfg.speedMax - cfg.speedMin) + cfg.speedMin)

/-- `Particle.prototype.spawn(x, y, options)`; `now` is `Date.now()`. -/
def Particle.spawn (env : MathEnv) (cfg : PConfig) (p : Particle) (x y : ℚ)
    (opts : SpawnOptions) (r : Rands) (now : ℚ) : Particle :=
  { id := p.id
    active := true
    x := x
    y := y
    vx := env.cos (spawnAngle env opts r) * spawnSpeed cfg opts r
    vy := env.sin (spawnAngle env opts r) * spawnSpeed cfg opts r
    size := opts.size.getD (r.sizeU * (cfg.sizeMax - cfg.sizeMin) + cfg.sizeMin)
    color := opts.color.getD (cfg.colors.getD r.colorIdx jsUndefined)
    life := 1
    maxLife := opts.lifetime.getD cfg.lifetime
    birthTime := now
    rot := r.rotU * env.pi * 2
    rotSpeed := (r.rotSpeedU - 1/2) * (1/10) }

/-- `Particle.prototype.update(deltaTime)`; `now` is the `Date.now()` read
inside the method.  Note the source never uses its `deltaTime` argument. -/
def Particle.update (cfg : PConfig) (p : Particle) (deltaTime : ℚ) (now : ℚ) :
    Particle :=
  if p.active = false then p
  else
    let vx1 := p.vx * cfg.friction
    let vy1 := (p.vy + cfg.gravity) * cfg.friction
    let life1 := 1 - (now - p.birthTime) / p.maxLife
    { p with
      vx := vx1
      vy := vy1
      x := p.x + vx1
      y := p.y + vy1
      rot := p.rot + p.rotSpeed
      life := life1
      active := if life1 ≤ 0 then false else true }

/-- `ParticlePool` state: `pool` is the free array, `active` the live array,
both in JS index order; `nextId` feeds fresh object identities. -/
structure PoolState where
  pool : List Particle
  active : List Particle
  nextId : Nat
deriving DecidableEq

/-- `new ParticlePool(size)`: pre-creates `size` particles (pushed in order,
so ids `0 .. size-1` left to right). -/
def initialPool (cfg : PConfig) (size : Nat) : PoolState :=
  { pool := (List.range size).map (newParticle cfg)
    active := []
    nextId := size }

/-- `ParticlePool.prototype.get()`: `pool.pop()` (the last element) if the
free array is non-empty, else `new Particle()`; the result is pushed onto
`active` and returned. -/
def PoolState.get (cfg : PConfig) (st : PoolState) : Particle × PoolState :=
  match st.pool.getLast? with
  | some p =>
      (p, { st with pool := st.pool.dropLast, active := st.active ++ [p] })
  | none =>
      let p := newParticle cfg st.nextId
      (p, { st with active := st.active ++ [p], nextId := st.nextId + 1 })

/-- `ParticlePool.prototype.release(particle)`: resets the object, removes
it from `active` (`indexOf` + `splice`, reference equality), and pushes it
onto `pool` only while `pool.length < PARTICLE_CONFIG.poolSize`. -/
def PoolState.release (cfg : PConfig) (st : PoolState) (p : Particle) :
    PoolState :=
  let pr := Particle.reset cfg p
  let active1 :=
    match st.active.findIdx? (fun q => q.id == p.id) with
    | some i => st.active.eraseIdx i
    | none => st.active
  let pool1 :=
    if st.pool.length < cfg.poolSize then st.pool ++ [pr] else st.pool
  { st with active := active1, pool := pool1 }

/-- `ParticlePool.prototype.getActiveCount()`. -/
def PoolState.getActiveCount (st : PoolState) : Nat := st.active.length

/-- The iteration of `Array.prototype.forEach` underlying
`ParticlePool.prototype.clear`: visit index `k` of the *current* array while
`k` runs over the original length (a visited element is passed to
`release`, which splices it out, shifting later elements left — exactly the
JS semantics when the callback mutates the array). -/
def clearLoop (cfg : PConfig) : Nat → Nat → PoolState → PoolState
  | 0, _, st => st
  | fuel + 1, k, st =>
      if h : k < st.active.length then
        clearLoop cfg fuel (k + 1) (st.release cfg (st.active.get ⟨k, h⟩))
      else st

/-- `ParticlePool.prototype.clear()`:
`this.active.forEach(particle => this.release(particle))`. -/
def PoolState.clear (cfg : PConfig) (st : PoolState) : PoolState :=
  clearLoop cfg st.active.length 0 st

/-- One iteration of a spawn-pattern loop: `const particle = this.pool.get();
particle.spawn(x, y, opts)`.  `spawn` mutates the object `get` just pushed
onto `active`, so the freshly appended (last) entry is rewritten. -/
def PoolState.spawnOne (env : MathEnv) (cfg : PConfig) (st : PoolState)
    (x y : ℚ) (opts : SpawnOptions) (r : Rands) (now : ℚ) : PoolState :=
  let pr := st.get cfg
  let p2 := Particle.spawn env cfg pr.1 x y opts r now
  { pr.2 with active := pr.2.active.dropLast ++ [p2] }

/-- `count = Math.ceil(count * PARTICLE_CONFIG.mobile.spawnRate)` — the
mobile spawn-count reduction. -/
def mobileCount (cfg : PConfig) (count : Nat) : Nat :=
  (⌈(count : ℚ) * cfg.mobileSpawnRate⌉).toNat

/-- The options object `{ angle, ...options }` built in iteration `i` of
the `spawnBurst` loop, with `angle = (Math.PI * 2 * i) / count`; the spread
lets an `angle` key already present in `options` override the computed
one. -/
def burstOpts (env : MathEnv) (opts : SpawnOptions) (c i : Nat) : SpawnOptions :=
  { opts with angle := some (opts.angle.getD (env.pi * 2 * (i : ℚ) / (c : ℚ))) }

/-- `ParticleEngine.prototype.spawnBurst(x, y, count, options)`.  `mob` is
the `IS_MOBILE_DEVICE` flag; `rs i` supplies the random draws of loop
iteration `i`. -/
def ParticleEngine.spawnBurst (env : MathEnv) (cfg : PConfig) (mob : Bool)
    (st : PoolState) (x y : ℚ) (count : Nat) (opts : SpawnOptions)
    (rs : Nat → Rands) (now : ℚ) : PoolState :=
  if cfg.maxParticles ≤ st.active.length then st
  else
    let c := if mob then mobileCount cfg count else count
    (List.range c).foldl
      (fun s (i : Nat) => s.spawnOne env cfg x y (burstOpts env opts c i) (rs i) now)
      st

/-- `ParticleEngine.prototype.spawnExplosion(x, y, count, options)`. -/
def ParticleEngine.spawnExplosion (env : MathEnv) (cfg : PConfig) (mob : Bool)
    (st : PoolState) (x y : ℚ) (count : Nat) (opts : SpawnOptions)
    (rs : Nat → Rands) (now : ℚ) : PoolState :=
  if cfg.maxParticles ≤ st.active.length then st
  else
    let c := if mob then mobileCount cfg count else count
    (List.range c).foldl
      (fun s i =>
        s.spawnOne env cfg x y
          { opts with
            angle := some (opts.angle.getD ((rs i).pAngleU * env.pi * 2))
            speed := some (opts.speed.getD ((rs i).pSpeedU * 6 + 2)) }
          (rs i) now)
      st

/-- `ParticleEngine.prototype.spawnFountain(x, y, count, options)`; the
source fixes `spread = 0.5` inside the loop. -/
def ParticleEngine.spawnFountain (env : MathEnv) (cfg : PConfig) (mob : Bool)
    (st : PoolState) (x y : ℚ) (count : Nat) (opts : SpawnOptions)
    (rs : Nat → Rands) (now : ℚ) : PoolState :=
  if cfg.maxParticles ≤ st.active.length then st
  else
    let c := if mob then mobileCount cfg count else count
    (List.range c).foldl
      (fun s i =>
        s.spawnOne env cfg x y
          { opts with
            angle := some (opts.angle.getD (-env.pi / 2 + ((rs i).pAngleU - 1/2) * (1/2)))
            speed := some (opts.speed.getD ((rs i).pSpeedU * 5 + 3)) }
          (rs i) now)
      st

/-- `ParticleEngine.prototype.spawnTrail(x, y, count = 3, options)`.  Note:
unlike the other three spawn methods, the source has no
`IS_MOBILE_DEVICE` count reduction here; `mob` is accepted for a uniform
signature but unused, exactly as the flag is unread by this method. -/
def ParticleEngine.spawnTrail (env : MathEnv) (cfg : PConfig) (_mob : Bool)
    (st : PoolState) (x y : ℚ) (count : Nat) (opts : SpawnOptions)
    (rs : Nat → Rands) (now : ℚ) : PoolState :=
  if cfg.maxParticles ≤ st.active.length then st
  else
    (List.range count).foldl
      (fun s i =>
        s.spawnOne env cfg x y
          { opts with
            angle := some (opts.angle.getD ((rs i).pAngleU * env.pi * 2))
            speed := some (opts.speed.getD ((rs i).pSpeedU * 2))
            size := some (opts.size.getD ((rs i).pSizeU * 4 + 2))
            lifetime := some (opts.lifetime.getD 1000) }
          (rs i) now)
      st

/-- One public spawn call on the engine, with its arguments and the random
draws it will consume. -/
inductive SpawnOp where
  | burst : ℚ → ℚ → Nat → SpawnOptions → (Nat → Rands) → ℚ → SpawnOp
  | explosion : ℚ → ℚ → Nat → SpawnOptions → (Nat → Rands) → ℚ → SpawnOp
  | fountain : ℚ → ℚ → Nat → SpawnOptions → (Nat → Rands) → ℚ → SpawnOp
  | trail : ℚ → ℚ → Nat → SpawnOptions → (Nat → Rands) → ℚ → SpawnOp

/-- Dispatch one spawn call. -/
def applyOp (env : MathEnv) (cfg : PConfig) (mob : Bool) (st : PoolState) :
    SpawnOp → PoolState
  | SpawnOp.burst x y c opts rs now =>
      ParticleEngine.spawnBurst env cfg mob st x y c opts rs now
  | SpawnOp.explosion x y c opts rs now =>
      ParticleEngine.spawnExplosion env cfg mob st x y c opts rs now
  | SpawnOp.fountain x y c opts rs now =>
      ParticleEngine.spawnFountain env cfg mob st x y c opts rs now
  | SpawnOp.trail x y c opts rs now =>
      ParticleEngine.spawnTrail env cfg mob st x y c opts rs now

/-- Run a sequence of spawn calls. -/
def runOps (env : MathEnv) (cfg : PConfig) (mob : Bool) :
    List SpawnOp → PoolState → PoolState
  | [], st => st
  | op :: ops, st => runOps env cfg mob ops (applyOp env cfg mob st op)

/-- The number of particles one call acquires when its budget guard passes:
the mobile-scaled count for burst/explosion/fountain, the unscaled count
for trail. -/
def opCount (cfg : PConfig) (mob : Bool) : SpawnOp → Nat
  | SpawnOp.burst _ _ c _ _ _ => if mob then mobileCount cfg c else c
  | SpawnOp.explosion _ _ c _ _ _ => if mob then mobileCount cfg c else c
  | SpawnOp.fountain _ _ c _ _ _ => if mob then mobileCount cfg c else c
  | SpawnOp.trail _ _ c _ _ _ => c

/-- The total number of particles acquired along a run: each call
contributes its `opCount` when it starts under budget and `0` when its
guard rejects it. -/
def acquiredDuring (env : MathEnv) (cfg : PConfig) (mob : Bool) :
    List SpawnOp → PoolState → Nat
  | [], _ => 0
  | op :: ops, st =>
      (if cfg.maxParticles ≤ st.active.length then 0 else opCount cfg mob op)
        + acquiredDuring env cfg mob ops (applyOp env cfg mob st op)

/-- Outcome of `ParticleEngine.prototype.init()` as observed by the caller:
either a returned boolean or an uncaught exception. -/
inductive InitOutcome where
  | ret : Bool → InitOutcome
  | threw : InitOutcome
deriving DecidableEq

/-- `ParticleEngine.prototype.init()`.  The DOM steps are modelled by the
single environment fact that matters: whether `canvas.getContext('2d', ...)`
yields a context (`document.createElement('canvas')` cannot fail).  The
source never checks the context: when `getContext` returns `null`, the
`this.ctx.scale(dpr, dpr)` call inside `resize()` throws a `TypeError`
that propagates out of `init`; otherwise `init` runs to its unconditional
`return true`. -/
def ParticleEngine.init (getContext2dOk : Bool) : InitOutcome :=
  if getContext2dOk then InitOutcome.ret true else InitOutcome.threw

/-! ### Concrete instances used by scenarios and witnesses -/

/-- A trivial trigonometry environment for concrete scenarios. -/
def envZ : MathEnv := { cos := fun _ => 0, sin := fun _ => 0, pi := 0 }

/-- A fixed random-draw record for concrete scenarios. -/
def rand0 : Rands :=
  { angleU := 0, speedU := 0, sizeU := 0, colorIdx := 0, rotU := 0,
    rotSpeedU := 0, pAngleU := 0, pSpeedU := 0, pSizeU := 0 }

/-- `spawnX(x, y, count)` with no options object: every key absent. -/
def noOpts : SpawnOptions :=
  { angle := none, speed := none, size := none, color := none, lifetime := none }

/-- A pool with no free and no live particles. -/
def emptyPool : PoolState := { pool := [], active := [], nextId := 0 }

/-- A live (active) particle with identity `i`, for building scenario
states. -/
def liveP (i : Nat) : Particle := { newParticle PARTICLE_CONFIG i with active := true }

/-- `acquire()` iterated `n` times, collecting the returned objects in call
order. -/
def acqN (cfg : PConfig) : Nat → PoolState → List Particle × PoolState
  | 0, st => ([], st)
  | n + 1, st =>
      let pr := st.get cfg
      let rest := acqN cfg n pr.2
      (pr.1 :: rest.1, rest.2)

/-- `release` each particle of the list in order. -/
def relAll (cfg : PConfig) (ps : List Particle) (st : PoolState) : PoolState :=
  ps.foldl (fun s p => s.release cfg p) st

/-! ### Bookkeeping lemmas -/

theorem get_snd_active (cfg : PConfig) (st : PoolState) :
    ((st.get cfg).2).active = st.active ++ [(st.get cfg).1] := by
  unfold PoolState.get
  cases st.pool.getLast? <;> rfl

theorem spawnOne_active (env : MathEnv) (cfg : PConfig) (st : PoolState)
    (x y : ℚ) (opts : SpawnOptions) (r : Rands) (now : ℚ) :
    (st.spawnOne env cfg x y opts r now).active
      = st.active ++ [Particle.spawn env cfg (st.get cfg).1 x y opts r now] := by
  simp only [PoolState.spawnOne]
  rw [get_snd_active, List.dropLast_concat]

theorem spawnOne_length (env : MathEnv) (cfg : PConfig) (st : PoolState)
    (x y : ℚ) (opts : SpawnOptions) (r : Rands) (now : ℚ) :
    (st.spawnOne env cfg x y opts r now).active.length
      = st.active.length + 1 := by
  rw [spawnOne_active]; simp

theorem foldl_length_add (F : PoolState → Nat → PoolState)
    (h : ∀ s i, (F s i).active.length = s.active.length + 1) :
    ∀ (l : List Nat) (st : PoolState),
      (l.foldl F st).active.length = st.active.length + l.length := by
  intro l
  induction l with
  | nil => intro st; simp
  | cons a t ih =>
      intro st
      rw [List.foldl_cons, ih, h]
      simp [Nat.add_comm, Nat.add_assoc, Nat.add_left_comm]

theorem spawnBurst_length (env : MathEnv) (cfg : PConfig) (mob : Bool)
    (st : PoolState) (x y : ℚ) (n : Nat) (opts : SpawnOptions)
    (rs : Nat → Rands) (now : ℚ) :
    (ParticleEngine.spawnBurst env cfg mob st x y n opts rs now).active.length
      = if cfg.maxParticles ≤ st.active.length then st.active.length
        else st.active.length + (if mob then mobileCount cfg n else n) := by
  unfold ParticleEngine.spawnBurst
  split
  · rfl
  · rw [foldl_length_add _ (fun s i => spawnOne_length env cfg s x y _ (rs i) now)]
    simp

theorem spawnExplosion_length (env : MathEnv) (cfg : PConfig) (mob : Bool)
    (st : PoolState) (x y : ℚ) (n : Nat) (opts : SpawnOptions)
    (rs : Nat → Rands) (now : ℚ) :
    (ParticleEngine.spawnExplosion env cfg mob st x y n opts rs now).active.length
      = if cfg.maxParticles ≤ st.active.length then st.active.length
        else st.active.length + (if mob then mobileCount cfg n else n) := by
  unfold ParticleEngine.spawnExplosion
  split
  · rfl
  · rw [foldl_length_add _ (fun s i => spawnOne_length env cfg s x y _ (rs i) now)]
    simp

theorem spawnFountain_length (env : MathEnv) (cfg : PConfig) (mob : Bool)
    (st : PoolState) (x y : ℚ) (n : Nat) (opts : SpawnOptions)
    (rs : Nat → Rands) (now : ℚ) :
    (ParticleEngine.spawnFountain env cfg mob st x y n opts rs now).active.length
      = if cfg.maxParticles ≤ st.active.length then st.active.length
        else st.active.length + (if mob then mobileCount cfg n else n) := by
  unfold ParticleEngine.spawnFountain
  split
  · rfl
  · rw [foldl_length_add _ (fun s i => spawnOne_length env cfg s x y _ (rs i) now)]
    simp

theorem spawnTrail_length (env : MathEnv) (cfg : PConfig) (mob : Bool)
    (st : PoolState) (x y : ℚ) (n : Nat) (opts : SpawnOptions)
    (rs : Nat → Rands) (now : ℚ) :
    (ParticleEngine.spawnTrail env cfg mob st x y n opts rs now).active.length
      = if cfg.maxParticles ≤ st.active.length then st.active.length
        else st.active.length + n := by
  unfold ParticleEngine.spawnTrail
  split
  · rfl
  · rw [foldl_length_add _ (fun s i => spawnOne_length env cfg s x y _ (rs i) now)]
    simp

theorem applyOp_length (env : MathEnv) (cfg : PConfig) (mob : Bool)
    (st : PoolState) (op : SpawnOp) :
    (applyOp env cfg mob st op).active.length
      = if cfg.maxParticles ≤ st.active.length then st.active.length
        else st.active.length + opCount cfg mob op := by
  cases op with
  | burst x y c opts rs now => exact spawnBurst_length env cfg mob st x y c opts rs now
  | explosion x y c opts rs now => exact spawnExplosion_length env cfg mob st x y c opts rs now
  | fountain x y c opts rs now => exact spawnFountain_length env cfg mob st x y c opts rs now
  | trail x y c opts rs now => exact spawnTrail_length env cfg mob st x y c opts rs now

/-! ### Claim C5 -/

/-- Claim C5: if `spawnBurst` is called while `activeCount()` equals or
exceeds `maxParticles`, the call silently returns without spawning and the
pool state (hence `activeCount()`) is unchanged; the same holds for
`spawnExplosion`, `spawnFountain` and `spawnTrail`. -/
theorem spawn_noop_at_capacity (env : MathEnv) (cfg : PConfig) (mob : Bool)
    (st : PoolState) (x y : ℚ) (n : Nat) (opts : SpawnOptions)
    (rs : Nat → Rands) (now : ℚ)
    (h : cfg.maxParticles ≤ st.active.length) :
    ParticleEngine.spawnBurst env cfg mob st x y n opts rs now = st ∧
    ParticleEngine.spawnExplosion env cfg mob st x y n opts rs now = st ∧
    ParticleEngine.spawnFountain env cfg mob st x y n opts rs now = st ∧
    ParticleEngine.spawnTrail env cfg mob st x y n opts rs now = st := by
  refine ⟨?_, ?_, ?_, ?_⟩ <;>
    simp [ParticleEngine.spawnBurst, ParticleEngine.spawnExplosion,
      ParticleEngine.spawnFountain, ParticleEngine.spawnTrail, h]

/-- A configuration whose particle budget is zero, so that the empty pool is
already at capacity. -/
def cfgMax0 : PConfig := { PARTICLE_CONFIG with maxParticles := 0 }

/-- Witness for C5 at a concrete at-capacity state. -/
theorem spawn_noop_at_capacity_witness :
    cfgMax0.maxParticles ≤ emptyPool.active.length ∧
    (ParticleEngine.spawnBurst envZ cfgMax0 false emptyPool 0 0 5 noOpts
        (fun _ => rand0) 0 = emptyPool ∧
      ParticleEngine.spawnExplosion envZ cfgMax0 false emptyPool 0 0 5 noOpts
        (fun _ => rand0) 0 = emptyPool ∧
      ParticleEngine.spawnFountain envZ cfgMax0 false emptyPool 0 0 5 noOpts
        (fun _ => rand0) 0 = emptyPool ∧
      ParticleEngine.spawnTrail envZ cfgMax0 false emptyPool 0 0 5 noOpts
        (fun _ => rand0) 0 = emptyPool) :=
  ⟨by decide,
    spawn_noop_at_capacity envZ cfgMax0 false emptyPool 0 0 5 noOpts
      (fun _ => rand0) 0 (by decide)⟩

/-! ### Claim C3 -/

theorem mobileCount_mobileConfig_3 : mobileCount mobileConfig 3 = 2 := by
  unfold mobileCount
  have hr : mobileConfig.mobileSpawnRate = 1/2 := rfl
  rw [hr]
  have h : (⌈((3 : Nat) : ℚ) * (1/2)⌉) = 2 := by
    rw [Int.ceil_eq_iff]
    norm_num
  rw [h]
  rfl

theorem mobileCount_config_20 : mobileCount PARTICLE_CONFIG 20 = 10 := by
  unfold mobileCount
  have hr : PARTICLE_CONFIG.mobileSpawnRate = 1/2 := rfl
  rw [hr]
  have h : (⌈((20 : Nat) : ℚ) * (1/2)⌉) = 10 := by
    rw [Int.ceil_eq_iff]
    norm_num
  rw [h]
  rfl

/-- Counterexample to claim C3 as stated: on the constrained profile with
spawn-rate `1/2`, `spawnTrail(0, 0, 3)` spawns all `3` particles, not
`ceil(3 * 1/2) = 2` — the source of `spawnTrail` has no mobile count
reduction. -/
theorem spawnTrail_ignores_mobile_rate :
    (ParticleEngine.spawnTrail envZ mobileConfig true emptyPool 0 0 3 noOpts
        (fun _ => rand0) 0).active.length = 3 ∧
    mobileCount mobileConfig 3 = 2 ∧ (3 : Nat) ≠ 2 := by
  refine ⟨?_, mobileCount_mobileConfig_3, by decide⟩
  rw [spawnTrail_length]
  decide

/-- Claim C3 amended: on the constrained (mobile) profile, `spawnBurst`,
`spawnExplosion` and `spawnFountain` spawn `ceil(count * r)` particles
(when under budget), but `spawnTrail` spawns `count` unscaled; in
particular with `r = 1/2`, a burst of `20` spawns `ceil(20 * 1/2) = 10`. -/
theorem mobile_rate_scaling (env : MathEnv) (cfg : PConfig) (st : PoolState)
    (x y : ℚ) (n : Nat) (opts : SpawnOptions) (rs : Nat → Rands) (now : ℚ)
    (hb : st.active.length < cfg.maxParticles) :
    (ParticleEngine.spawnBurst env cfg true st x y n opts rs now).active.length
        = st.active.length + mobileCount cfg n ∧
    (ParticleEngine.spawnExplosion env cfg true st x y n opts rs now).active.length
        = st.active.length + mobileCount cfg n ∧
    (ParticleEngine.spawnFountain env cfg true st x y n opts rs now).active.length
        = st.active.length + mobileCount cfg n ∧
    (ParticleEngine.spawnTrail env cfg true st x y n opts rs now).active.length
        = st.active.length + n ∧
    mobileCount PARTICLE_CONFIG 20 = 10 := by
  have h' : ¬ cfg.maxParticles ≤ st.active.length := Nat.not_le.mpr hb
  refine ⟨?_, ?_, ?_, ?_, mobileCount_config_20⟩
  · rw [spawnBurst_length]; simp [h']
  · rw [spawnExplosion_length]; simp [h']
  · rw [spawnFountain_length]; simp [h']
  · rw [spawnTrail_length]; simp [h']

/-- Witness for the amended C3 on the mobile configuration. -/
theorem mobile_rate_scaling_witness :
    emptyPool.active.length < mobileConfig.maxParticles ∧
    ((ParticleEngine.spawnBurst envZ mobileConfig true emptyPool 0 0 4 noOpts
        (fun _ => rand0) 0).active.length
          = emptyPool.active.length + mobileCount mobileConfig 4 ∧
      (ParticleEngine.spawnExplosion envZ mobileConfig true emptyPool 0 0 4 noOpts
        (fun _ => rand0) 0).active.length
          = emptyPool.active.length + mobileCount mobileConfig 4 ∧
      (ParticleEngine.spawnFountain envZ mobileConfig true emptyPool 0 0 4 noOpts
        (fun _ => rand0) 0).active.length
          = emptyPool.active.length + mobileCount mobileConfig 4 ∧
      (ParticleEngine.spawnTrail envZ mobileConfig true emptyPool 0 0 4 noOpts
        (fun _ => rand0) 0).active.length
          = emptyPool.active.length + 4 ∧
      mobileCount PARTICLE_CONFIG 20 = 10) :=
  ⟨by decide,
    mobile_rate_scaling envZ mobileConfig emptyPool 0 0 4 noOpts
      (fun _ => rand0) 0 (by decide)⟩

/-! ### Claim C4 -/

/-- Counterexample to claim C4 as stated: when the render surface cannot be
created (`getContext` yields no context), `init()` does not report failure
by returning `false` — the unchecked context makes `resize()` throw, and no
execution path returns `false`. -/
theorem init_reports_no_failure :
    ParticleEngine.init false = InitOutcome.threw ∧
    ParticleEngine.init false ≠ InitOutcome.ret false := by
  decide

/-- Claim C4 amended: `init()` returns `true` whenever it completes (context
acquired); when the 2d context is unavailable it throws from `resize`'s
`ctx.scale` call instead of returning `false`, so it never reports failure
through its return value. -/
theorem init_true_or_throws :
    ParticleEngine.init true = InitOutcome.ret true ∧
    ParticleEngine.init false = InitOutcome.threw := by
  decide

/-! ### Claim C2 -/

/-- Claim C2 (code bug): `clear()` iterates `active` with `forEach` while
`release` splices elements out of the same array, so every other live
particle is skipped.  With two live particles, one survives `clear()`:
`activeCount()` is `1`, not `0`. -/
theorem clear_leaves_live_particle :
    (PoolState.clear PARTICLE_CONFIG
        { pool := [], active := [liveP 0, liveP 1], nextId := 2 }).getActiveCount = 1 ∧
    (PoolState.clear PARTICLE_CONFIG
        { pool := [], active := [liveP 0, liveP 1], nextId := 2 }).getActiveCount ≠ 0 := by
  decide

/-! ### Claim C8 -/

/-- The pool-of-capacity-5 scenario configuration. -/
def cfg5 : PConfig := { PARTICLE_CONFIG with poolSize := 5 }

/-- Claim C8: with pool capacity 5, seven `get()` calls yield seven distinct
objects — the five preallocated ones (ids `< 5`, drained last-first) and two
fresh ones (ids `≥ 5`) — emptying the free list; releasing all seven returns
exactly five to the free list and discards the other two, leaving no live
particles. -/
theorem pool_capacity5_scenario :
    (acqN cfg5 7 (initialPool cfg5 5)).1.map Particle.id = [4, 3, 2, 1, 0, 5, 6] ∧
    ((acqN cfg5 7 (initialPool cfg5 5)).1.map Particle.id).Nodup ∧
    (acqN cfg5 7 (initialPool cfg5 5)).1.length = 7 ∧
    ((acqN cfg5 7 (initialPool cfg5 5)).1.take 5).all (fun p => p.id < 5) = true ∧
    ((acqN cfg5 7 (initialPool cfg5 5)).1.drop 5).all (fun p => 5 ≤ p.id) = true ∧
    (acqN cfg5 7 (initialPool cfg5 5)).2.pool = [] ∧
    (acqN cfg5 7 (initialPool cfg5 5)).2.active.length = 7 ∧
    (relAll cfg5 (acqN cfg5 7 (initialPool cfg5 5)).1
        (acqN cfg5 7 (initialPool cfg5 5)).2).pool.length = 5 ∧
    (relAll cfg5 (acqN cfg5 7 (initialPool cfg5 5)).1
        (acqN cfg5 7 (initialPool cfg5 5)).2).active = [] := by
  decide

/-! ### Claim C1 -/

/-- Counterexample to claim C1 as stated: the budget check runs once per
call, before the acquisition loop, so a single `spawnBurst(0, 0, 250)` from
the empty pool leaves `250` live particles — more than
`maxParticles = 200`. -/
theorem spawn_ops_can_exceed_budget :
    (runOps envZ PARTICLE_CONFIG false
        [SpawnOp.burst 0 0 250 noOpts (fun _ => rand0) 0] emptyPool).active.length = 250 ∧
    PARTICLE_CONFIG.maxParticles < 250 := by
  constructor
  · show (applyOp envZ PARTICLE_CONFIG false emptyPool
        (SpawnOp.burst 0 0 250 noOpts (fun _ => rand0) 0)).active.length = 250
    rw [applyOp_length]
    decide
  · decide

/-- Claim C1 amended: along any sequence of spawn operations, the live-set
size grows by exactly the number of particles acquired (each call acquires
its effective count when it starts strictly under budget and nothing
otherwise, and spawning never releases); since the budget is checked once
per call before the loop, `activeCount()` may overshoot `maxParticles`, and
the actual invariant is
`activeCount ≤ max initial (maxParticles - 1 + cap)` for any bound `cap` on
the per-call effective counts. -/
theorem runOps_length_and_bound (env : MathEnv) (cfg : PConfig) (mob : Bool)
    (cap : Nat) :
    ∀ (ops : List SpawnOp) (st : PoolState),
      (∀ op ∈ ops, opCount cfg mob op ≤ cap) →
      (runOps env cfg mob ops st).active.length
          = st.active.length + acquiredDuring env cfg mob ops st ∧
      (runOps env cfg mob ops st).active.length
          ≤ max st.active.length (cfg.maxParticles - 1 + cap) := by
  intro ops
  induction ops with
  | nil =>
      intro st _
      constructor
      · simp [runOps, acquiredDuring]
      · exact le_max_left _ _
  | cons op ops ih =>
      intro st h
      have hop : opCount cfg mob op ≤ cap := h op (List.mem_cons_self op ops)
      have hops : ∀ o ∈ ops, opCount cfg mob o ≤ cap :=
        fun o ho => h o (List.mem_cons_of_mem op ho)
      have hlen := applyOp_length env cfg mob st op
      obtain ⟨ih1, ih2⟩ := ih (applyOp env cfg mob st op) hops
      constructor
      · show (runOps env cfg mob ops (applyOp env cfg mob st op)).active.length = _
        rw [ih1, hlen]
        show _ = st.active.length +
          ((if cfg.maxParticles ≤ st.active.length then 0 else opCount cfg mob op)
            + acquiredDuring env cfg mob ops (applyOp env cfg mob st op))
        by_cases hc : cfg.maxParticles ≤ st.active.length
        · rw [if_pos hc, if_pos hc]
          omega
        · rw [if_neg hc, if_neg hc]
          omega
      · show (runOps env cfg mob ops (applyOp env cfg mob st op)).active.length ≤ _
        rw [hlen] at ih2
        by_cases hc : cfg.maxParticles ≤ st.active.length
        · rw [if_pos hc] at ih2
          exact ih2
        · rw [if_neg hc] at ih2
          have h1 : st.active.length < cfg.maxParticles := Nat.lt_of_not_le hc
          have h2 : st.active.length + opCount cfg mob op
              ≤ cfg.maxParticles - 1 + cap := by omega
          rw [Nat.max_eq_right h2] at ih2
          exact le_trans ih2 (le_max_right _ _)

/-- Witness for the amended C1 on a concrete one-call sequence. -/
theorem runOps_length_and_bound_witness :
    (∀ op ∈ ([SpawnOp.burst 0 0 3 noOpts (fun _ => rand0) 0] : List SpawnOp),
        opCount PARTICLE_CONFIG false op ≤ 3) ∧
    ((runOps envZ PARTICLE_CONFIG false
        [SpawnOp.burst 0 0 3 noOpts (fun _ => rand0) 0] emptyPool).active.length
        = emptyPool.active.length
          + acquiredDuring envZ PARTICLE_CONFIG false
              [SpawnOp.burst 0 0 3 noOpts (fun _ => rand0) 0] emptyPool ∧
      (runOps envZ PARTICLE_CONFIG false
        [SpawnOp.burst 0 0 3 noOpts (fun _ => rand0) 0] emptyPool).active.length
        ≤ max emptyPool.active.length (PARTICLE_CONFIG.maxParticles - 1 + 3)) := by
  have h : ∀ op ∈ ([SpawnOp.burst 0 0 3 noOpts (fun _ => rand0) 0] : List SpawnOp),
      opCount PARTICLE_CONFIG false op ≤ 3 := by
    intro op hmem
    rw [List.mem_singleton] at hmem
    subst hmem
    decide
  exact ⟨h, runOps_length_and_bound envZ PARTICLE_CONFIG false 3
    [SpawnOp.burst 0 0 3 noOpts (fun _ => rand0) 0] emptyPool h⟩

/-! ### Claim C9 -/

/-- Claim C9: with the free list below its capacity, `release(p)` followed
by `get()` hands back the very object just released (reset), and spawning
it produces a particle whose fields agree with spawning *any* other
particle `q` with the same inputs — apart from the object identity, nothing
of the pre-release state survives; in particular, with no `color` override
the color is the palette draw, never the previously stored color. -/
theorem respawn_no_state_leak (env : MathEnv) (cfg : PConfig) (st : PoolState)
    (p q : Particle) (x y : ℚ) (opts : SpawnOptions) (r : Rands) (now : ℚ)
    (hroom : st.pool.length < cfg.poolSize) :
    ((st.release cfg p).get cfg).1 = Particle.reset cfg p ∧
    Particle.spawn env cfg ((st.release cfg p).get cfg).1 x y opts r now
      = { Particle.spawn env cfg q x y opts r now with id := p.id } ∧
    (opts.color = none →
      (Particle.spawn env cfg ((st.release cfg p).get cfg).1 x y opts r now).color
        = cfg.colors.getD r.colorIdx jsUndefined) := by
  have hpool : (st.release cfg p).pool = st.pool ++ [Particle.reset cfg p] := by
    simp only [PoolState.release]
    rw [if_pos hroom]
  have hlast : ((st.release cfg p).pool).getLast? = some (Particle.reset cfg p) := by
    rw [hpool]
    exact List.getLast?_concat _
  have hget : ((st.release cfg p).get cfg).1 = Particle.reset cfg p := by
    unfold PoolState.get
    rw [hlast]
  refine ⟨hget, ?_, ?_⟩
  · rw [hget]
    rfl
  · intro hcol
    rw [hget]
    simp [Particle.spawn, hcol]

/-- Witness for C9 at a concrete pool state and two unequal particles. -/
theorem respawn_no_state_leak_witness :
    emptyPool.pool.length < PARTICLE_CONFIG.poolSize ∧
    (((emptyPool.release PARTICLE_CONFIG (liveP 9)).get PARTICLE_CONFIG).1
        = Particle.reset PARTICLE_CONFIG (liveP 9) ∧
      Particle.spawn envZ PARTICLE_CONFIG
          ((emptyPool.release PARTICLE_CONFIG (liveP 9)).get PARTICLE_CONFIG).1
          1 2 noOpts rand0 3
        = { Particle.spawn envZ PARTICLE_CONFIG (liveP 7) 1 2 noOpts rand0 3
            with id := (liveP 9).id } ∧
      (noOpts.color = none →
        (Particle.spawn envZ PARTICLE_CONFIG
            ((emptyPool.release PARTICLE_CONFIG (liveP 9)).get PARTICLE_CONFIG).1
            1 2 noOpts rand0 3).color
          = PARTICLE_CONFIG.colors.getD rand0.colorIdx jsUndefined)) :=
  ⟨by decide,
    respawn_no_state_leak envZ PARTICLE_CONFIG emptyPool (liveP 9) (liveP 7)
      1 2 noOpts rand0 3 (by decide)⟩

/-! ### Claim C7 -/

/-- Claim C7: for a live particle with positive `maxLife`, the
`normalizedLife` recomputed by `update` is non-increasing in the wall-clock
time, is `≤ 0` whenever `update` runs at or after
`birthTimestamp + maxLifetime`, and whenever an update computes a life
`≤ 0` the same update sets `active = false` (no one-frame lag). -/
theorem life_monotone_deactivation (cfg : PConfig) (p : Particle)
    (d1 d2 t1 t2 : ℚ)
    (hm : 0 < p.maxLife) (ha : p.active = true) (h12 : t1 ≤ t2) :
    (Particle.update cfg p d2 t2).life ≤ (Particle.update cfg p d1 t1).life ∧
    (p.birthTime + p.maxLife ≤ t2 → (Particle.update cfg p d2 t2).life ≤ 0) ∧
    ((Particle.update cfg p d2 t2).life ≤ 0 →
      (Particle.update cfg p d2 t2).active = false) := by
  have hcond : ¬ (p.active = false) := by rw [ha]; simp
  refine ⟨?_, ?_, ?_⟩
  · simp only [Particle.update, if_neg hcond]
    have hd : (t1 - p.birthTime) / p.maxLife ≤ (t2 - p.birthTime) / p.maxLife :=
      (div_le_div_iff_of_pos_right hm).mpr (by linarith)
    linarith
  · intro hexp
    simp only [Particle.update, if_neg hcond]
    have hd : 1 ≤ (t2 - p.birthTime) / p.maxLife :=
      (one_le_div hm).mpr (by linarith)
    linarith
  · intro hdead
    simp only [Particle.update, if_neg hcond] at hdead ⊢
    rw [if_pos hdead]

/-- Witness for C7 on a live particle of the default lifetime. -/
theorem life_monotone_deactivation_witness :
    (0 < (liveP 0).maxLife ∧ (liveP 0).active = true ∧ (5 : ℚ) ≤ 7) ∧
    ((Particle.update PARTICLE_CONFIG (liveP 0) 16 7).life
        ≤ (Particle.update PARTICLE_CONFIG (liveP 0) 16 5).life ∧
      ((liveP 0).birthTime + (liveP 0).maxLife ≤ 7 →
        (Particle.update PARTICLE_CONFIG (liveP 0) 16 7).life ≤ 0) ∧
      ((Particle.update PARTICLE_CONFIG (liveP 0) 16 7).life ≤ 0 →
        (Particle.update PARTICLE_CONFIG (liveP 0) 16 7).active = false)) :=
  ⟨⟨by decide, by decide, by decide⟩,
    life_monotone_deactivation PARTICLE_CONFIG (liveP 0) 16 16 5 7
      (by decide) (by decide) (by decide)⟩

/-! ### Claim C10 -/

/-- Claim C10: a particle ages against the absolute time captured at spawn,
not against the `deltaTime` passed to `update` — which `update` ignores
entirely — nor against the number of update calls: one single `update`
running later than `birthTime + maxLife` deactivates the particle in that
one pass. -/
theorem aging_wallclock_not_delta (env : MathEnv) (cfg : PConfig)
    (p0 : Particle) (x y : ℚ) (opts : SpawnOptions) (r : Rands)
    (t0 t1 d : ℚ)
    (hm : 0 < (Particle.spawn env cfg p0 x y opts r t0).maxLife)
    (ht : t0 + (Particle.spawn env cfg p0 x y opts r t0).maxLife < t1) :
    (∀ (q : Particle) (dA dB tq : ℚ),
        Particle.update cfg q dA tq = Particle.update cfg q dB tq) ∧
    (Particle.update cfg (Particle.spawn env cfg p0 x y opts r t0) d t1).active
      = false := by
  constructor
  · intro q dA dB tq
    rfl
  · have hb : (Particle.spawn env cfg p0 x y opts r t0).birthTime = t0 := rfl
    have hcond : ¬ ((Particle.spawn env cfg p0 x y opts r t0).active = false) := by
      simp [Particle.spawn]
    simp only [Particle.update, if_neg hcond]
    have hd : 1 < (t1 - (Particle.spawn env cfg p0 x y opts r t0).birthTime)
        / (Particle.spawn env cfg p0 x y opts r t0).maxLife :=
      (one_lt_div hm).mpr (by rw [hb]; linarith)
    rw [if_pos (by linarith)]

/-- Witness for C10: a particle spawned at time `0` with the default
2000 ms lifetime, updated once at time `2001`. -/
theorem aging_wallclock_not_delta_witness :
    (0 < (Particle.spawn envZ PARTICLE_CONFIG (liveP 0) 0 0 noOpts rand0 0).maxLife ∧
      0 + (Particle.spawn envZ PARTICLE_CONFIG (liveP 0) 0 0 noOpts rand0 0).maxLife
        < 2001) ∧
    ((∀ (q : Particle) (dA dB tq : ℚ),
        Particle.update PARTICLE_CONFIG q dA tq = Particle.update PARTICLE_CONFIG q dB tq) ∧
      (Particle.update PARTICLE_CONFIG
          (Particle.spawn envZ PARTICLE_CONFIG (liveP 0) 0 0 noOpts rand0 0)
          16 2001).active = false) := by
  have hml : (Particle.spawn envZ PARTICLE_CONFIG (liveP 0) 0 0 noOpts rand0 0).maxLife
      = 2000 := rfl
  have h1 : 0 < (Particle.spawn envZ PARTICLE_CONFIG (liveP 0) 0 0 noOpts rand0 0).maxLife := by
    rw [hml]; norm_num
  have h2 : 0 + (Particle.spawn envZ PARTICLE_CONFIG (liveP 0) 0 0 noOpts rand0 0).maxLife
      < 2001 := by
    rw [hml]; norm_num
  exact ⟨⟨h1, h2⟩,
    aging_wallclock_not_delta envZ PARTICLE_CONFIG (liveP 0) 0 0 noOpts rand0
      0 2001 16 h1 h2⟩

/-! ### Claim C6 -/

theorem burst_fold_index (env : MathEnv) (cfg : PConfig) (x y now : ℚ)
    (opts : SpawnOptions) (rs : Nat → Rands) (c : Nat) :
    ∀ (n : Nat) (st : PoolState) (i : Nat), i < n →
      ∃ q, ((List.range n).foldl
          (fun s (k : Nat) => s.spawnOne env cfg x y (burstOpts env opts c k) (rs k) now)
          st).active[st.active.length + i]?
        = some (Particle.spawn env cfg q x y (burstOpts env opts c i) (rs i) now) := by
  intro n
  induction n with
  | zero =>
      intro st i h
      exact absurd h (Nat.not_lt_zero i)
  | succ m ih =>
      intro st i h
      rw [List.range_succ, List.foldl_append, List.foldl_cons, List.foldl_nil,
        spawnOne_active]
      set stm := (List.range m).foldl
        (fun s (k : Nat) => s.spawnOne env cfg x y (burstOpts env opts c k) (rs k) now)
        st with hstm
      have hlen : stm.active.length = st.active.length + m := by
        rw [hstm, foldl_length_add _
          (fun s k => spawnOne_length env cfg s x y (burstOpts env opts c k) (rs k) now)]
        simp
      rcases Nat.lt_or_ge i m with him | him
      · obtain ⟨q, hq⟩ := ih st i him
        rw [← hstm] at hq
        refine ⟨q, ?_⟩
        rw [List.getElem?_append_left (by omega)]
        exact hq
      · have hi : i = m := by omega
        subst hi
        refine ⟨(stm.get cfg).1, ?_⟩
        rw [← hlen]
        exact List.getElem?_concat_length _ _

/-- Claim C6: a `spawnBurst(x, y, N, options)` call that starts under
budget, on the non-constrained profile and with no `angle` override, spawns
exactly `N` new live particles, and the `i`-th of them is launched at angle
`2π·i/N`: its velocity is
`(cos(2π·i/N) * speed_i, sin(2π·i/N) * speed_i)` where `speed_i` is the
speed drawn (or overridden) for that particle. -/
theorem spawnBurst_count_and_angles (env : MathEnv) (cfg : PConfig)
    (st : PoolState) (x y : ℚ) (N : Nat) (opts : SpawnOptions)
    (rs : Nat → Rands) (now : ℚ)
    (hb : st.active.length < cfg.maxParticles) (hang : opts.angle = none)
    (hN : 0 < N) :
    (ParticleEngine.spawnBurst env cfg false st x y N opts rs now).active.length
        = st.active.length + N ∧
    ∀ i, i < N →
      ∃ p, (ParticleEngine.spawnBurst env cfg false st x y N opts rs
            now).active[st.active.length + i]? = some p ∧
        p.active = true ∧
        p.vx = env.cos (env.pi * 2 * (i : ℚ) / (N : ℚ)) * spawnSpeed cfg opts (rs i) ∧
        p.vy = env.sin (env.pi * 2 * (i : ℚ) / (N : ℚ)) * spawnSpeed cfg opts (rs i) := by
  have hguard : ¬ (cfg.maxParticles ≤ st.active.length) := Nat.not_le.mpr hb
  have hunfold : ParticleEngine.spawnBurst env cfg false st x y N opts rs now
      = (List.range N).foldl
          (fun s (k : Nat) => s.spawnOne env cfg x y (burstOpts env opts N k) (rs k) now)
          st := by
    unfold ParticleEngine.spawnBurst
    rw [if_neg hguard]
    rfl
  constructor
  · rw [spawnBurst_length]
    simp [hguard]
  · intro i hi
    rw [hunfold]
    obtain ⟨q, hq⟩ := burst_fold_index env cfg x y now opts rs N N st i hi
    refine ⟨_, hq, rfl, ?_, ?_⟩
    · show env.cos (spawnAngle env (burstOpts env opts N i) (rs i))
          * spawnSpeed cfg (burstOpts env opts N i) (rs i) = _
      simp [spawnAngle, spawnSpeed, burstOpts, hang]
    · show env.sin (spawnAngle env (burstOpts env opts N i) (rs i))
          * spawnSpeed cfg (burstOpts env opts N i) (rs i) = _
      simp [spawnAngle, spawnSpeed, burstOpts, hang]

/-- Witness for C6: a burst of two particles from the empty pool. -/
theorem spawnBurst_count_and_angles_witness :
    (emptyPool.active.length < PARTICLE_CONFIG.maxParticles ∧
      noOpts.angle = none ∧ 0 < 2) ∧
    ((ParticleEngine.spawnBurst envZ PARTICLE_CONFIG false emptyPool 0 0 2 noOpts
        (fun _ => rand0) 0).active.length = emptyPool.active.length + 2 ∧
      ∀ i, i < 2 →
        ∃ p, (ParticleEngine.spawnBurst envZ PARTICLE_CONFIG false emptyPool 0 0 2 noOpts
              (fun _ => rand0) 0).active[emptyPool.active.length + i]? = some p ∧
          p.active = true ∧
          p.vx = envZ.cos (envZ.pi * 2 * (i : ℚ) / (2 : ℚ))
              * spawnSpeed PARTICLE_CONFIG noOpts rand0 ∧
          p.vy = envZ.sin (envZ.pi * 2 * (i : ℚ) / (2 : ℚ))
              * spawnSpeed PARTICLE_CONFIG noOpts rand0) :=
  ⟨⟨by decide, rfl, by decide⟩,
    spawnBurst_count_and_angles envZ PARTICLE_CONFIG emptyPool 0 0 2 noOpts
      (fun _ => rand0) 0 (by decide) rfl (by decide)⟩
